import Mathlib

/-!
Verification of the exergy-lab techno-economic and exergy analysis engine.

This file gives a shallow embedding, over the rationals, of the two core
modules of the repository:

* backend/app/tea/exergy_analysis.py  (class ExergyAnalyzer)
* backend/app/tea/calculator.py       (class TEACalculator)

Python floats are embedded as rationals (exact arithmetic); Python dicts
keyed by strings are embedded as association lists with insert-or-replace
semantics; Python truthiness tests on optional floats (where None and 0.0
are both falsy) are embedded explicitly via optTruthy.  Fallible paths are
embedded with Option / Except.
-/

set_option allowUnsafeReducibility true

attribute [local semireducible] Rat.mul Rat.inv Rat.add Rat.sub Rat.ofScientific

/-! ## Rounding

Python's builtin round uses banker's rounding (round half to even).
roundTo d x embeds round(x, d). -/

def roundHalfEven (x : ℚ) : ℤ :=
  let n : ℤ := x.num.fdiv (x.den : ℤ)
  let frac := x - (n : ℚ)
  if frac < 1/2 then n
  else if 1/2 < frac then n + 1
  else if n % 2 = 0 then n else n + 1

def roundTo (d : ℕ) (x : ℚ) : ℚ :=
  ((roundHalfEven (x * 10 ^ d) : ℤ) : ℚ) / 10 ^ d

/-! ## Exergy engine (exergy_analysis.py) -/

/-- Python str.lower, written over the character list so that it reduces
by computation (String.toLower is definitionally identical on the strings
involved but does not evaluate inside the kernel). -/
def pyLower (s : String) : String :=
  String.mk (s.data.map Char.toLower)

/-- Truthiness of an optional float in Python: None and 0.0 are falsy. -/
def optTruthy (o : Option ℚ) : Bool :=
  match o with
  | none => false
  | some x => x != 0

/-- Enum EnergyQuality from exergy_analysis.py.  Each member carries a
fixed quality value (see EnergyQuality.value). -/
inductive EnergyQuality where
  | ELECTRICITY
  | MECHANICAL_WORK
  | HIGH_TEMP_HEAT
  | MEDIUM_TEMP_HEAT
  | LOW_TEMP_HEAT
  | CHEMICAL
deriving DecidableEq

/-- The numeric value attached to each EnergyQuality member (1.0, 1.0,
0.6, 0.4, 0.2, 0.9 in the source). -/
def EnergyQuality.value : EnergyQuality → ℚ
  | .ELECTRICITY => 1
  | .MECHANICAL_WORK => 1
  | .HIGH_TEMP_HEAT => 3/5
  | .MEDIUM_TEMP_HEAT => 2/5
  | .LOW_TEMP_HEAT => 1/5
  | .CHEMICAL => 9/10

/-- Membership test end_use_type in [HIGH_TEMP_HEAT, MEDIUM_TEMP_HEAT,
LOW_TEMP_HEAT] used in analyze_process. -/
def EnergyQuality.isHeatUse : EnergyQuality → Bool
  | .HIGH_TEMP_HEAT => true
  | .MEDIUM_TEMP_HEAT => true
  | .LOW_TEMP_HEAT => true
  | _ => false

/-- Reference temperature T0 = 298.15 K of ExergyAnalyzer. -/
def T0 : ℚ := 29815/100

/-- Dict ExergyAnalyzer.EFFICIENCY_FACTORS, as a lookup returning none on
a missing key (Python dict.get). -/
def EFFICIENCY_FACTORS (s : String) : Option ℚ :=
  if s = "coal" then some (32/100)
  else if s = "oil" then some (30/100)
  else if s = "gas" then some (52/100)
  else if s = "nuclear" then some (25/100)
  else if s = "hydro" then some (87/100)
  else if s = "wind" then some (88/100)
  else if s = "solar" then some (85/100)
  else if s = "biomass" then some (20/100)
  else if s = "geothermal" then some (82/100)
  else none

/-- Dict ExergyAnalyzer.SOURCE_QUALITY_FACTORS (fetched but unused by
analyze_process; kept for fidelity). -/
def SOURCE_QUALITY_FACTORS (s : String) : Option ℚ :=
  if s = "coal" then some (78/100)
  else if s = "oil" then some (82/100)
  else if s = "gas" then some (46/100)
  else if s = "nuclear" then some (95/100)
  else if s = "hydro" then some (95/100)
  else if s = "wind" then some (95/100)
  else if s = "solar" then some (95/100)
  else if s = "biomass" then some (26/100)
  else if s = "geothermal" then some (54/100)
  else none

/-- Test source in ["coal", "oil", "gas", "biomass"] (fuel sources whose
input exergy is scaled by 1.06). -/
def isFuelSource (s : String) : Bool :=
  s = "coal" || s = "oil" || s = "gas" || s = "biomass"

/-- Test source in ["wind", "solar", "hydro", "nuclear"] (sources whose
input exergy equals input energy). -/
def isRenewableSource (s : String) : Bool :=
  s = "wind" || s = "solar" || s = "hydro" || s = "nuclear"

/-- ExergyAnalyzer.calculate_carnot_factor.  The second argument defaults
to None in the source; the Python expression cold_temp_k or cls.T0 treats
both None and 0.0 as absent. -/
def calculate_carnot_factor (hot_temp_k : ℚ) (cold_temp_k : Option ℚ) : ℚ :=
  let cold_temp : ℚ :=
    match cold_temp_k with
    | none => T0
    | some c => if c = 0 then T0 else c
  if hot_temp_k ≤ cold_temp then 0
  else 1 - cold_temp / hot_temp_k

/-- ExergyAnalyzer.calculate_heat_exergy. -/
def calculate_heat_exergy (heat_mj : ℚ) (temp_k : ℚ) : ℚ :=
  if temp_k ≤ T0 then 0
  else heat_mj * calculate_carnot_factor temp_k none

/-- One process step passed to analyze_process: a dict with keys name,
input_exergy, output_exergy (the source defaults missing keys to
"Unknown" / 0; here the fields are always present). -/
structure ProcessStep where
  name : String
  input_exergy : ℚ
  output_exergy : ℚ
deriving DecidableEq

/-- The per-component record built by ExergyAnalyzer._analyze_components. -/
structure Component where
  input_exergy : ℚ
  output_exergy : ℚ
  exergy_destruction : ℚ
  destruction_share : ℚ
  efficiency : ℚ
deriving DecidableEq

/-- Insert-or-replace into an association list, matching Python dict
assignment: an existing key keeps its position and gets the new value, a
new key is appended. -/
def dictInsert (l : List (String × Component)) (name : String) (c : Component) :
    List (String × Component) :=
  if l.any (fun p => p.1 = name) then
    l.map (fun p => if p.1 = name then (p.1, c) else p)
  else l ++ [(name, c)]

/-- First pass of ExergyAnalyzer._analyze_components: build the analysis
dict with destruction_share set to 0. -/
def componentPass (steps : List ProcessStep) : List (String × Component) :=
  steps.foldl (fun (acc : List (String × Component)) step =>
    dictInsert acc step.name
      { input_exergy := step.input_exergy
        output_exergy := step.output_exergy
        exergy_destruction := step.input_exergy - step.output_exergy
        destruction_share := 0
        efficiency :=
          if (0:ℚ) < step.input_exergy then step.output_exergy / step.input_exergy
          else 0 }) []

/-- The total exergy destruction summed over the analysis dict (computed
after duplicate step names have collapsed, as in the source). -/
def totalDestruction (steps : List ProcessStep) : ℚ :=
  ((componentPass steps).map (fun p => p.2.exergy_destruction)).sum

/-- ExergyAnalyzer._analyze_components: destruction shares are filled in
only when the total destruction is strictly positive. -/
def analyze_components (steps : List ProcessStep) : List (String × Component) :=
  let analysis := componentPass steps
  let total : ℚ := (analysis.map (fun p => p.2.exergy_destruction)).sum
  if 0 < total then
    analysis.map (fun p =>
      (p.1, { p.2 with destruction_share := p.2.exergy_destruction / total }))
  else analysis

/-- Result dataclass ExergyAnalysisResult of exergy_analysis.py. -/
structure ExergyAnalysisResult where
  input_energy_mj : ℚ
  input_exergy_mj : ℚ
  useful_energy_mj : ℚ
  useful_exergy_mj : ℚ
  energy_loss_mj : ℚ
  exergy_destruction_mj : ℚ
  first_law_efficiency : ℚ
  second_law_efficiency : ℚ
  exergy_destruction_ratio : ℚ
  improvement_potential_mj : ℚ
  thermodynamic_perfection : ℚ
  carnot_factor : Option ℚ
  component_analysis : Option (List (String × Component))

/-- ExergyAnalyzer.analyze_process.  Faithful rendering including the
Python truthiness tests: the heat branch and the Carnot computation fire
only when output_temp_k is a truthy float, and the final carnot_factor
field is None whenever the computed Carnot factor is 0.0 (if carnot else
None in the source). -/
def analyze_process (energy_source : String) (input_energy_mj : ℚ)
    (output_temp_k : Option ℚ) (end_use_type : EnergyQuality)
    (process_steps : List ProcessStep) : ExergyAnalysisResult :=
  let source := pyLower energy_source
  let efficiency := (EFFICIENCY_FACTORS source).getD (30/100)
  let exergy_fuel_factor : ℚ := if isFuelSource source then 106/100 else 1
  let input_exergy0 := input_energy_mj * exergy_fuel_factor
  let input_exergy :=
    if isRenewableSource source then input_energy_mj else input_exergy0
  let useful_energy := input_energy_mj * efficiency
  let useful_exergy :=
    if optTruthy output_temp_k && end_use_type.isHeatUse then
      calculate_heat_exergy useful_energy (output_temp_k.getD 0)
    else useful_energy * end_use_type.value
  let energy_loss := input_energy_mj - useful_energy
  let exergy_destruction := input_exergy - useful_exergy
  let first_law_eff :=
    if 0 < input_energy_mj then useful_energy / input_energy_mj else 0
  let second_law_eff :=
    if 0 < input_exergy then useful_exergy / input_exergy else 0
  let destruction_ratio :=
    if 0 < input_exergy then exergy_destruction / input_exergy else 0
  let improvement_potential := exergy_destruction * (1 - second_law_eff)
  let thermodynamic_perfection := second_law_eff * 100
  let component_analysis :=
    if process_steps.isEmpty then none else some (analyze_components process_steps)
  let carnot : Option ℚ :=
    if optTruthy output_temp_k then
      some (calculate_carnot_factor (output_temp_k.getD 0) none)
    else none
  { input_energy_mj := input_energy_mj
    input_exergy_mj := roundTo 2 input_exergy
    useful_energy_mj := roundTo 2 useful_energy
    useful_exergy_mj := roundTo 2 useful_exergy
    energy_loss_mj := roundTo 2 energy_loss
    exergy_destruction_mj := roundTo 2 exergy_destruction
    first_law_efficiency := roundTo 4 first_law_eff
    second_law_efficiency := roundTo 4 second_law_eff
    exergy_destruction_ratio := roundTo 4 destruction_ratio
    improvement_potential_mj := roundTo 2 improvement_potential
    thermodynamic_perfection := roundTo 1 thermodynamic_perfection
    carnot_factor :=
      match carnot with
      | some c => if c = 0 then none else some (roundTo 4 c)
      | none => none
    component_analysis := component_analysis }

/-! ## Financial engine (calculator.py) -/

/-- The raw input dict accepted by TEACalculator.  capacity_mw and
capex_per_kw are required keys; every other numeric key is optional and
is merged with a default (TEADefaults / literal defaults in
_merge_with_defaults).  The project_name and technology_type strings are
omitted: no computation reads them. -/
structure RawInputs where
  capacity_mw : ℚ
  capex_per_kw : ℚ
  opex_per_kw_year : Option ℚ := none
  capacity_factor : Option ℚ := none
  annual_production_mwh : Option ℚ := none
  installation_factor : Option ℚ := none
  land_cost : Option ℚ := none
  grid_connection_cost : Option ℚ := none
  fixed_opex_annual : Option ℚ := none
  variable_opex_per_mwh : Option ℚ := none
  insurance_rate : Option ℚ := none
  project_lifetime_years : Option ℕ := none
  discount_rate : Option ℚ := none
  debt_ratio : Option ℚ := none
  interest_rate : Option ℚ := none
  tax_rate : Option ℚ := none
  depreciation_years : Option ℕ := none
  electricity_price_per_mwh : Option ℚ := none
  price_escalation_rate : Option ℚ := none
  carbon_credit_per_ton : Option ℚ := none
  carbon_intensity_avoided : Option ℚ := none

/-- The merged input dict self.inputs after _merge_with_defaults: every
field concrete except the explicit annual production override, which
stays optional. -/
structure Merged where
  capacity_mw : ℚ
  capex_per_kw : ℚ
  opex_per_kw_year : ℚ
  capacity_factor : ℚ
  annual_production_mwh : Option ℚ
  installation_factor : ℚ
  land_cost : ℚ
  grid_connection_cost : ℚ
  fixed_opex_annual : ℚ
  variable_opex_per_mwh : ℚ
  insurance_rate : ℚ
  project_lifetime_years : ℕ
  discount_rate : ℚ
  debt_ratio : ℚ
  interest_rate : ℚ
  tax_rate : ℚ
  depreciation_years : ℕ
  electricity_price_per_mwh : ℚ
  price_escalation_rate : ℚ
  carbon_credit_per_ton : ℚ
  carbon_intensity_avoided : ℚ
deriving DecidableEq

/-- TEACalculator._merge_with_defaults with the default values of
TEADefaults (installation 1.2, insurance 0.01, lifetime 25, discount
0.08, debt 0.6, interest 0.05, tax 0.21, depreciation 20, price 50,
escalation 0.02, carbon 0) and the literal defaults of the method
(opex 0, capacity factor 0.25, land/grid/fixed/variable 0). -/
def mergeWithDefaults (i : RawInputs) : Merged :=
  { capacity_mw := i.capacity_mw
    capex_per_kw := i.capex_per_kw
    opex_per_kw_year := i.opex_per_kw_year.getD 0
    capacity_factor := i.capacity_factor.getD (25/100)
    annual_production_mwh := i.annual_production_mwh
    installation_factor := i.installation_factor.getD (12/10)
    land_cost := i.land_cost.getD 0
    grid_connection_cost := i.grid_connection_cost.getD 0
    fixed_opex_annual := i.fixed_opex_annual.getD 0
    variable_opex_per_mwh := i.variable_opex_per_mwh.getD 0
    insurance_rate := i.insurance_rate.getD (1/100)
    project_lifetime_years := i.project_lifetime_years.getD 25
    discount_rate := i.discount_rate.getD (8/100)
    debt_ratio := i.debt_ratio.getD (6/10)
    interest_rate := i.interest_rate.getD (5/100)
    tax_rate := i.tax_rate.getD (21/100)
    depreciation_years := i.depreciation_years.getD 20
    electricity_price_per_mwh := i.electricity_price_per_mwh.getD 50
    price_escalation_rate := i.price_escalation_rate.getD (2/100)
    carbon_credit_per_ton := i.carbon_credit_per_ton.getD 0
    carbon_intensity_avoided := i.carbon_intensity_avoided.getD 0 }

/-- TEACalculator._validate_inputs: the four checks, in source order,
each raising ValueError with the given message.  Returns the message of
the first failing check, or none when validation passes. -/
def validateMsg (m : Merged) : Option String :=
  if m.capacity_mw ≤ 0 then some "Capacity must be greater than 0"
  else if m.capex_per_kw ≤ 0 then some "CAPEX must be greater than 0"
  else if ¬ (0 < m.capacity_factor ∧ m.capacity_factor ≤ 1) then
    some "Capacity factor must be between 0 and 1"
  else if m.discount_rate < 0 ∨ 1 < m.discount_rate then
    some "Discount rate must be between 0 and 1"
  else none

/-- An input set passes TEACalculator validation. -/
def Valid (m : Merged) : Prop := validateMsg m = none

instance (m : Merged) : Decidable (Valid m) := by
  unfold Valid
  infer_instance

/-- TEACalculator._calculate_annual_production.  The Python truthiness
test if self.inputs[annual_production_mwh]: treats both a missing
override (None) and an explicit 0 as absent. -/
def calculate_annual_production (m : Merged) : ℚ :=
  match m.annual_production_mwh with
  | some p => if p = 0 then 8760 * m.capacity_factor * m.capacity_mw else p
  | none => 8760 * m.capacity_factor * m.capacity_mw

/-- Capex breakdown dict returned by TEACalculator._calculate_capex. -/
structure CapexBreakdown where
  equipment : ℚ
  installation : ℚ
  land : ℚ
  grid_connection : ℚ
deriving DecidableEq

/-- TEACalculator._calculate_capex. -/
def calculate_capex (m : Merged) : CapexBreakdown :=
  let capacity_kw := m.capacity_mw * 1000
  let equipment_cost := capacity_kw * m.capex_per_kw
  { equipment := equipment_cost
    installation := equipment_cost * (m.installation_factor - 1)
    land := m.land_cost
    grid_connection := m.grid_connection_cost }

/-- sum(capex_breakdown.values()). -/
def totalCapex (m : Merged) : ℚ :=
  let b := calculate_capex m
  b.equipment + b.installation + b.land + b.grid_connection

/-- Opex breakdown dict returned by TEACalculator._calculate_annual_opex. -/
structure OpexBreakdown where
  capacity_based : ℚ
  fixed : ℚ
  variable_opex : ℚ
  insurance : ℚ
deriving DecidableEq

/-- TEACalculator._calculate_annual_opex. -/
def calculate_annual_opex (m : Merged) (annual_production : ℚ) : OpexBreakdown :=
  let capacity_kw := m.capacity_mw * 1000
  { capacity_based := capacity_kw * m.opex_per_kw_year
    fixed := m.fixed_opex_annual
    variable_opex := annual_production * m.variable_opex_per_mwh
    insurance := totalCapex m * m.insurance_rate }

/-- sum(opex_breakdown.values()). -/
def annualOpexTotal (m : Merged) (annual_production : ℚ) : ℚ :=
  let b := calculate_annual_opex m annual_production
  b.capacity_based + b.fixed + b.variable_opex + b.insurance

/-- TEACalculator._calculate_annual_revenue for year ≥ 1 (the source is
only ever called with year ≥ 1; the exponent year − 1 is natural
subtraction). -/
def calculate_annual_revenue (m : Merged) (annual_production : ℚ) (year : ℕ) : ℚ :=
  let price := m.electricity_price_per_mwh * (1 + m.price_escalation_rate) ^ (year - 1)
  let electricity_revenue := annual_production * price
  let carbon_revenue :=
    annual_production * m.carbon_intensity_avoided * m.carbon_credit_per_ton
  electricity_revenue + carbon_revenue

/-- TEACalculator._calculate_cash_flows: year 0 is the negated total
capex, years 1..N are revenue minus opex escalated at 2 percent. -/
def calculate_cash_flows (m : Merged) (total_capex annual_opex annual_production : ℚ) :
    List ℚ :=
  -total_capex ::
    (List.range m.project_lifetime_years).map (fun i =>
      calculate_annual_revenue m annual_production (i + 1)
        - annual_opex * (102/100 : ℚ) ^ i)

/-- The cash-flow sequence produced inside TEACalculator.calculate: the
production, capex and opex totals are computed from the merged inputs and
passed to _calculate_cash_flows. -/
def cashFlowsOf (m : Merged) : List ℚ :=
  let p := calculate_annual_production m
  calculate_cash_flows m (totalCapex m) (annualOpexTotal m p) p

/-- TEACalculator._calculate_lcoe.  none embeds the float(inf) returned
when the discounted production is zero. -/
def calculate_lcoe (m : Merged) (total_capex annual_opex annual_production : ℚ) :
    Option ℚ :=
  let r := m.discount_rate
  let n := m.project_lifetime_years
  let discounted_opex : ℚ :=
    ∑ t ∈ Finset.range n, annual_opex * (102/100 : ℚ) ^ t / (1 + r) ^ (t + 1)
  let total_discounted_cost := total_capex + discounted_opex
  let discounted_production : ℚ :=
    ∑ t ∈ Finset.range n, annual_production / (1 + r) ^ (t + 1)
  if discounted_production = 0 then none
  else some (total_discounted_cost / discounted_production)

/-- The unrounded LCOE produced inside TEACalculator.calculate. -/
def lcoeOf (m : Merged) : Option ℚ :=
  let p := calculate_annual_production m
  calculate_lcoe m (totalCapex m) (annualOpexTotal m p) p

/-- The unrounded LCOE with the infinite case mapped to 0, for stating
comparisons (both sides of every comparison below are proved finite). -/
def lcoeValD (m : Merged) : ℚ := (lcoeOf m).getD 0

/-- TEACalculator._calculate_npv. -/
def calculate_npv (m : Merged) (cash_flows : List ℚ) : ℚ :=
  (cash_flows.enum.map (fun p => p.2 / (1 + m.discount_rate) ^ p.1)).sum

/-- NPV at an arbitrary rate, as computed inside the Newton-Raphson
fallback of TEACalculator._calculate_irr. -/
def npvAt (rate : ℚ) (cash_flows : List ℚ) : ℚ :=
  (cash_flows.enum.map (fun p => p.2 / (1 + rate) ^ p.1)).sum

/-- Derivative of the NPV with respect to the rate, as computed inside
the Newton-Raphson fallback of TEACalculator._calculate_irr. -/
def npvDerivAt (rate : ℚ) (cash_flows : List ℚ) : ℚ :=
  (cash_flows.enum.map (fun p => -(p.1 : ℚ) * p.2 / (1 + rate) ^ (p.1 + 1))).sum

/-- One bounded run of the Newton-Raphson loop of
TEACalculator._calculate_irr: up to fuel iterations; break before the
update when the derivative magnitude is below 1e-10 (returning the
current rate), break after the update when the NPV magnitude at the
pre-update rate is below 1e-6 (returning the updated rate); when the
iteration budget runs out the last rate is returned. -/
def newtonLoop : ℕ → ℚ → List ℚ → ℚ
  | 0, rate, _ => rate
  | fuel + 1, rate, cash_flows =>
    let npv := npvAt rate cash_flows
    let npv_derivative := npvDerivAt rate cash_flows
    if |npv_derivative| < 1/10 ^ 10 then rate
    else
      let rate2 := rate - npv / npv_derivative
      if |npv| < 1/10 ^ 6 then rate2
      else newtonLoop fuel rate2 cash_flows

/-- Outcome of the primary library root-finder np.irr, which is external
to the repository: it can return a finite value, return a non-finite
value (nan or inf), or raise.  TEACalculator._calculate_irr dispatches on
exactly these three cases. -/
inductive PrimaryIrr where
  | finiteVal (r : ℚ)
  | nonfinite
  | raised
deriving DecidableEq

/-- TEACalculator._calculate_irr with the numpy call abstracted as a
PrimaryIrr outcome: a finite primary value is returned as is, a
non-finite one becomes 0.0, and an exception falls back to Newton-Raphson
from rate 0.1 with max_iterations = 1000. -/
def calculate_irr (primary : PrimaryIrr) (cash_flows : List ℚ) : ℚ :=
  match primary with
  | .finiteVal r => r
  | .nonfinite => 0
  | .raised => newtonLoop 1000 (1/10) cash_flows

/-- TEACalculator._calculate_payback, recursion on the remaining cash
flows carrying the running cumulative total and the current year index. -/
def paybackAux (cumulative : ℚ) (year : ℕ) : List ℚ → ℚ
  | [] => (year : ℚ)
  | cf :: rest =>
    let c := cumulative + cf
    if 0 ≤ c then
      if 0 < year ∧ 0 < cf then (year : ℚ) - 1 + (cf - c) / cf
      else (year : ℚ)
    else paybackAux c (year + 1) rest

/-- TEACalculator._calculate_payback.  When the loop never finds a
non-negative running total it returns float(len(cash_flows)), which the
recursion reaches as the final year index. -/
def calculate_payback (cash_flows : List ℚ) : ℚ :=
  paybackAux 0 0 cash_flows

/-- The numeric parameters of the merged input dict that
sensitivity_analysis can scale by (1 + pct/100).  The integer-valued and
optional keys are not scalable sensitivity targets. -/
inductive Param where
  | capacity_mw
  | capex_per_kw
  | opex_per_kw_year
  | capacity_factor
  | installation_factor
  | land_cost
  | grid_connection_cost
  | fixed_opex_annual
  | variable_opex_per_mwh
  | insurance_rate
  | discount_rate
  | debt_ratio
  | interest_rate
  | tax_rate
  | electricity_price_per_mwh
  | price_escalation_rate
  | carbon_credit_per_ton
  | carbon_intensity_avoided
deriving DecidableEq

/-- Read a scalable parameter from the merged inputs
(self.inputs[parameter]). -/
def getParam (m : Merged) : Param → ℚ
  | .capacity_mw => m.capacity_mw
  | .capex_per_kw => m.capex_per_kw
  | .opex_per_kw_year => m.opex_per_kw_year
  | .capacity_factor => m.capacity_factor
  | .installation_factor => m.installation_factor
  | .land_cost => m.land_cost
  | .grid_connection_cost => m.grid_connection_cost
  | .fixed_opex_annual => m.fixed_opex_annual
  | .variable_opex_per_mwh => m.variable_opex_per_mwh
  | .insurance_rate => m.insurance_rate
  | .discount_rate => m.discount_rate
  | .debt_ratio => m.debt_ratio
  | .interest_rate => m.interest_rate
  | .tax_rate => m.tax_rate
  | .electricity_price_per_mwh => m.electricity_price_per_mwh
  | .price_escalation_rate => m.price_escalation_rate
  | .carbon_credit_per_ton => m.carbon_credit_per_ton
  | .carbon_intensity_avoided => m.carbon_intensity_avoided

/-- Write a scalable parameter into a copy of the merged inputs
(modified_inputs[parameter] = value). -/
def setParam (m : Merged) (v : ℚ) : Param → Merged
  | .capacity_mw => { m with capacity_mw := v }
  | .capex_per_kw => { m with capex_per_kw := v }
  | .opex_per_kw_year => { m with opex_per_kw_year := v }
  | .capacity_factor => { m with capacity_factor := v }
  | .installation_factor => { m with installation_factor := v }
  | .land_cost => { m with land_cost := v }
  | .grid_connection_cost => { m with grid_connection_cost := v }
  | .fixed_opex_annual => { m with fixed_opex_annual := v }
  | .variable_opex_per_mwh => { m with variable_opex_per_mwh := v }
  | .insurance_rate => { m with insurance_rate := v }
  | .discount_rate => { m with discount_rate := v }
  | .debt_ratio => { m with debt_ratio := v }
  | .interest_rate => { m with interest_rate := v }
  | .tax_rate => { m with tax_rate := v }
  | .electricity_price_per_mwh => { m with electricity_price_per_mwh := v }
  | .price_escalation_rate => { m with price_escalation_rate := v }
  | .carbon_credit_per_ton => { m with carbon_credit_per_ton := v }
  | .carbon_intensity_avoided => { m with carbon_intensity_avoided := v }

/-- The (lcoe, npv) pair that TEACalculator.calculate reports for one
input set: lcoe rounded to 2 digits (none embedding float(inf)) and npv
rounded to 0 digits. -/
def calcLcoeNpv (m : Merged) : Option ℚ × ℚ :=
  ((lcoeOf m).map (roundTo 2), roundTo 0 (calculate_npv m (cashFlowsOf m)))

/-- TEACalculator.sensitivity_analysis: for each percentage variation,
scale the chosen parameter, rebuild the calculator (which re-validates
and, in the source, raises ValueError out of the whole sweep on the first
invalid variation, discarding all results), and collect parallel lcoe and
npv arrays.  The Except error value is the ValueError message. -/
def sensitivity_analysis (m : Merged) (parameter : Param) :
    List ℚ → Except String (List (Option ℚ) × List ℚ)
  | [] => .ok ([], [])
  | pct :: rest =>
    let modified := setParam m (getParam m parameter * (1 + pct / 100)) parameter
    match validateMsg modified with
    | some msg => .error msg
    | none =>
      let res := calcLcoeNpv modified
      match sensitivity_analysis m parameter rest with
      | .error msg => .error msg
      | .ok (ls, ns) => .ok (res.1 :: ls, res.2 :: ns)

/-! ## Helper lemmas -/

lemma sum_map_div (l : List ℚ) (T : ℚ) :
    (l.map (fun x => x / T)).sum = l.sum / T := by
  induction l with
  | nil => simp
  | cons a t ih => simp [ih, add_div]

lemma shares_sum_eq (l : List (String × Component)) (T : ℚ) :
    ((l.map (fun p =>
        (p.1, { p.2 with destruction_share := p.2.exergy_destruction / T }))).map
      (fun p => p.2.destruction_share)).sum
    = (l.map (fun p => p.2.exergy_destruction)).sum / T := by
  induction l with
  | nil => simp
  | cons a t ih =>
    simp only [List.map_cons, List.sum_cons]
    rw [ih, add_div]

/-! ## Claims about the exergy engine -/

/-- Example inputs used in several concrete statements below. -/
def twoSteps : List ProcessStep := [⟨"boiler", 10, 4⟩, ⟨"turbine", 8, 6⟩]

/-- C5 (confirmed): analyze_process on solar, 1000 MJ, electricity end-use
reports useful energy 850 MJ, input exergy 1000 MJ, useful exergy 850 MJ
and both efficiencies 0.85; on coal it reports input exergy 1060 MJ,
useful energy and exergy 320 MJ, exergy destruction 740 MJ and a
second-law efficiency of 0.3019, within 1e-3 of the claimed 0.302. -/
theorem C5_solar_coal_scenarios :
    (analyze_process "solar" 1000 none .ELECTRICITY []).useful_energy_mj = 850 ∧
    (analyze_process "solar" 1000 none .ELECTRICITY []).input_exergy_mj = 1000 ∧
    (analyze_process "solar" 1000 none .ELECTRICITY []).useful_exergy_mj = 850 ∧
    (analyze_process "solar" 1000 none .ELECTRICITY []).first_law_efficiency = 85/100 ∧
    (analyze_process "solar" 1000 none .ELECTRICITY []).second_law_efficiency = 85/100 ∧
    (analyze_process "coal" 1000 none .ELECTRICITY []).input_exergy_mj = 1060 ∧
    (analyze_process "coal" 1000 none .ELECTRICITY []).useful_energy_mj = 320 ∧
    (analyze_process "coal" 1000 none .ELECTRICITY []).useful_exergy_mj = 320 ∧
    (analyze_process "coal" 1000 none .ELECTRICITY []).exergy_destruction_mj = 740 ∧
    (analyze_process "coal" 1000 none .ELECTRICITY []).second_law_efficiency = 3019/10000 ∧
    |(3019/10000 : ℚ) - 302/1000| ≤ 1/1000 := by
  decide

/-- C2 (code bug): with output_temp 1000 K the Carnot factor is present
and rounds to 0.7018, within 1e-3 of the claimed 0.70185; but for any
output temperature at or below T0 = 298.15 K, calculate_carnot_factor
returns 0.0 while analyze_process reports the carnot_factor field as
absent (None), because the source tests the float 0.0 for truthiness. -/
theorem C2_carnot_presence :
    (analyze_process "solar" 1000 (some 1000) .ELECTRICITY []).carnot_factor
      = some (7018/10000) ∧
    |(7018/10000 : ℚ) - 70185/100000| ≤ 1/1000 ∧
    calculate_carnot_factor 1000 none = 70185/100000 ∧
    calculate_carnot_factor (29815/100) none = 0 ∧
    calculate_carnot_factor 250 none = 0 ∧
    (analyze_process "solar" 1000 (some (29815/100)) .ELECTRICITY []).carnot_factor
      = none ∧
    (analyze_process "solar" 1000 (some 250) .ELECTRICITY []).carnot_factor = none := by
  decide

/-- C1 amended (corrected): whenever the process steps are non-empty and
their total exergy destruction is strictly positive, the component
breakdown returned by analyze_process assigns every component a
destruction share equal to its destruction divided by the total, and the
shares sum to exactly 1. -/
theorem C1_destruction_shares (s : String) (E : ℚ) (temp : Option ℚ)
    (eu : EnergyQuality) (steps : List ProcessStep) (hne : steps ≠ [])
    (htot : 0 < totalDestruction steps) :
    (analyze_process s E temp eu steps).component_analysis
      = some (analyze_components steps) ∧
    ((analyze_components steps).map (fun p => p.2.destruction_share)).sum = 1 ∧
    ∀ p ∈ analyze_components steps,
      p.2.destruction_share = p.2.exergy_destruction / totalDestruction steps := by
  refine ⟨?_, ?_, ?_⟩
  · simp only [analyze_process]
    rw [if_neg (by simpa using hne)]
  · unfold analyze_components
    rw [if_pos (by simpa [totalDestruction] using htot)]
    rw [shares_sum_eq, div_self]
    exact ne_of_gt (by simpa [totalDestruction] using htot)
  · intro p hp
    unfold analyze_components at hp
    rw [if_pos (by simpa [totalDestruction] using htot)] at hp
    obtain ⟨q, hq, rfl⟩ := List.mem_map.mp hp
    simp [totalDestruction]

/-- Witness for C1_destruction_shares at a concrete two-step process with
total destruction 8. -/
theorem C1_destruction_shares_witness :
    (analyze_process "solar" 100 none .ELECTRICITY twoSteps).component_analysis
      = some (analyze_components twoSteps) ∧
    ((analyze_components twoSteps).map (fun p => p.2.destruction_share)).sum = 1 ∧
    ∀ p ∈ analyze_components twoSteps,
      p.2.destruction_share = p.2.exergy_destruction / totalDestruction twoSteps :=
  C1_destruction_shares "solar" 100 none .ELECTRICITY twoSteps (by decide)
    (by decide)

/-- C1 counterexample: a single step with equal input and output exergy
gives a non-empty component breakdown whose destruction shares sum to 0,
not to 1 within 1e-6, refuting the claim as stated. -/
theorem C1_counterexample :
    (analyze_process "solar" 100 none .ELECTRICITY
        [⟨"boiler", 5, 5⟩]).component_analysis.isSome = true ∧
    (((analyze_process "solar" 100 none .ELECTRICITY
        [⟨"boiler", 5, 5⟩]).component_analysis.getD []).map
      (fun p => p.2.destruction_share)).sum = 0 ∧
    ¬ |(0 : ℚ) - 1| ≤ 1/1000000 := by
  decide

/-! ## Claims about the financial engine -/

/-- Merged inputs of concrete scenario A: capacity 100 MW, capacity
factor 0.25 (the default), capex 1000 dollars per kW, all other fields
defaulted. -/
def scenarioA : Merged := mergeWithDefaults { capacity_mw := 100, capex_per_kw := 1000 }

/-- scenarioA with an explicit annual production override of 0. -/
def scenarioAZeroOverride : Merged :=
  mergeWithDefaults
    { capacity_mw := 100, capex_per_kw := 1000, annual_production_mwh := some 0 }

/-- scenarioA with an explicit annual production override of 500000. -/
def scenarioAOverride : Merged :=
  mergeWithDefaults
    { capacity_mw := 100, capex_per_kw := 1000,
      annual_production_mwh := some 500000 }

/-- C7 amended (corrected): annual production equals the override
whenever a nonzero override is given (a zero override is treated as
absent, falling back to the formula), and equals
8760 x capacity_factor x capacity when no override is given; scenario A
gives production 219000 MWh and equipment capex 100000000 dollars. -/
theorem C7_annual_production (m : Merged) (p : ℚ) :
    (m.annual_production_mwh = some p → p ≠ 0 →
      calculate_annual_production m = p) ∧
    (m.annual_production_mwh = none →
      calculate_annual_production m = 8760 * m.capacity_factor * m.capacity_mw) ∧
    calculate_annual_production scenarioA = 219000 ∧
    (calculate_capex scenarioA).equipment = 100000000 := by
  refine ⟨?_, ?_, by decide, by decide⟩
  · intro hov hnz
    simp [calculate_annual_production, hov, hnz]
  · intro hov
    simp [calculate_annual_production, hov]

/-- Witness for C7_annual_production at the override-500000 scenario. -/
theorem C7_annual_production_witness :
    (scenarioAOverride.annual_production_mwh = some 500000 → (500000 : ℚ) ≠ 0 →
      calculate_annual_production scenarioAOverride = 500000) ∧
    (scenarioAOverride.annual_production_mwh = none →
      calculate_annual_production scenarioAOverride
        = 8760 * scenarioAOverride.capacity_factor * scenarioAOverride.capacity_mw) ∧
    calculate_annual_production scenarioA = 219000 ∧
    (calculate_capex scenarioA).equipment = 100000000 :=
  C7_annual_production scenarioAOverride 500000

/-- C7 counterexample: an explicit override of 0 is given but ignored in
favour of the 8760 x capacity_factor x capacity formula, so annual
production does not equal the given override. -/
theorem C7_counterexample :
    scenarioAZeroOverride.annual_production_mwh = some 0 ∧
    calculate_annual_production scenarioAZeroOverride = 219000 ∧
    (219000 : ℚ) ≠ 0 := by
  decide

/-- The four range checks that a validated input set satisfies. -/
lemma valid_facts (m : Merged) (hv : Valid m) :
    0 < m.capacity_mw ∧ 0 < m.capex_per_kw ∧ 0 < m.capacity_factor ∧
    m.capacity_factor ≤ 1 ∧ 0 ≤ m.discount_rate ∧ m.discount_rate ≤ 1 := by
  unfold Valid validateMsg at hv
  by_cases h1 : m.capacity_mw ≤ 0
  · rw [if_pos h1] at hv
    exact absurd hv (by simp)
  rw [if_neg h1] at hv
  by_cases h2 : m.capex_per_kw ≤ 0
  · rw [if_pos h2] at hv
    exact absurd hv (by simp)
  rw [if_neg h2] at hv
  by_cases h3 : 0 < m.capacity_factor ∧ m.capacity_factor ≤ 1
  · rw [if_neg (not_not.mpr h3)] at hv
    by_cases h4 : m.discount_rate < 0 ∨ 1 < m.discount_rate
    · rw [if_pos h4] at hv
      exact absurd hv (by simp)
    · push_neg at h4
      exact ⟨not_le.mp h1, not_le.mp h2, h3.1, h3.2, h4.1, h4.2⟩
  · rw [if_pos h3] at hv
    exact absurd hv (by simp)

/-- The cash-flow list always has one entry per project year plus the
year-0 outlay. -/
lemma cashFlows_length (m : Merged) :
    (cashFlowsOf m).length = m.project_lifetime_years + 1 := by
  simp [cashFlowsOf, calculate_cash_flows]

/-- C4 amended (corrected): for every validated assumption set the
cash-flow sequence has exactly lifetime + 1 entries and entry 0 is the
negated total capital cost; entry 0 is strictly negative provided
additionally the installation factor is at least 1 and the land and
grid-connection costs are nonnegative (none of which validation checks). -/
theorem C4_cash_flow_sequence (m : Merged) (hv : Valid m)
    (hinst : 1 ≤ m.installation_factor) (hland : 0 ≤ m.land_cost)
    (hgrid : 0 ≤ m.grid_connection_cost) :
    (cashFlowsOf m).length = m.project_lifetime_years + 1 ∧
    (cashFlowsOf m).headI = -totalCapex m ∧
    (cashFlowsOf m).headI < 0 := by
  obtain ⟨hcap, hcapex, -, -, -, -⟩ := valid_facts m hv
  have hhead : (cashFlowsOf m).headI = -totalCapex m := rfl
  refine ⟨cashFlows_length m, hhead, ?_⟩
  rw [hhead]
  have hequip : 0 < m.capacity_mw * 1000 * m.capex_per_kw := by positivity
  have hinstall : 0 ≤ m.capacity_mw * 1000 * m.capex_per_kw * (m.installation_factor - 1) :=
    mul_nonneg hequip.le (by linarith)
  have htot : 0 < totalCapex m := by
    unfold totalCapex calculate_capex
    dsimp only
    linarith
  linarith

/-- Witness for C4_cash_flow_sequence at scenario A. -/
theorem C4_cash_flow_sequence_witness :
    (cashFlowsOf scenarioA).length = scenarioA.project_lifetime_years + 1 ∧
    (cashFlowsOf scenarioA).headI = -totalCapex scenarioA ∧
    (cashFlowsOf scenarioA).headI < 0 :=
  C4_cash_flow_sequence scenarioA (by decide) (by decide) (by decide) (by decide)

/-- Inputs that pass validation although the installation factor is 0, so
the total capital cost collapses to 0. -/
def zeroInstall : Merged :=
  mergeWithDefaults
    { capacity_mw := 1, capex_per_kw := 1, installation_factor := some 0,
      project_lifetime_years := some 1 }

/-- C4 counterexample: a validated assumption set (validation does not
constrain the installation factor) whose year-0 cash-flow entry is 0, not
strictly negative. -/
theorem C4_counterexample :
    Valid zeroInstall ∧ (cashFlowsOf zeroInstall).headI = 0 ∧
    ¬ (cashFlowsOf zeroInstall).headI < 0 := by
  decide

/-- The never-crossing loop of _calculate_payback: while every running
total stays negative the recursion walks the whole list and returns the
initial year index plus the list length. -/
lemma paybackAux_never (l : List ℚ) : ∀ (cum : ℚ) (year : ℕ),
    (∀ k < l.length, cum + (l.take (k+1)).sum < 0) →
    paybackAux cum year l = ((year + l.length : ℕ) : ℚ) := by
  induction l with
  | nil =>
    intro cum year _
    simp [paybackAux]
  | cons a t ih =>
    intro cum year h
    have h0 : cum + a < 0 := by simpa using h 0 (by simp)
    simp only [paybackAux]
    rw [if_neg (by linarith)]
    rw [ih (cum + a) (year + 1) ?_]
    · rw [List.length_cons]
      push_cast
      ring
    · intro k hk
      have := h (k+1) (by simpa using Nat.succ_lt_succ hk)
      simpa [add_assoc] using this

/-- The crossing case of _calculate_payback: if position j is the first
whose running total is non-negative, all earlier totals being negative,
the recursion returns the interpolated year. -/
lemma paybackAux_cross (l : List ℚ) : ∀ (j : ℕ) (cum : ℚ) (year : ℕ),
    j < l.length → 0 < year + j →
    (∀ k < j, cum + (l.take (k+1)).sum < 0) →
    cum + (l.take j).sum < 0 →
    0 ≤ cum + (l.take (j+1)).sum →
    paybackAux cum year l
      = ((year + j : ℕ) : ℚ) - (cum + (l.take (j+1)).sum) / l.getD j 0 := by
  induction l with
  | nil =>
    intro j cum year hj
    exact absurd hj (by simp)
  | cons a t ih =>
    intro j cum year hj hyj hneg hprev hcross
    cases j with
    | zero =>
      have hc : 0 ≤ cum + a := by simpa using hcross
      have hcum : cum < 0 := by simpa using hprev
      have ha : 0 < a := by linarith
      have hyear : 0 < year := by simpa using hyj
      simp only [paybackAux]
      rw [if_pos hc, if_pos ⟨hyear, ha⟩]
      simp only [List.take_succ_cons, List.take_zero, List.sum_cons, List.sum_nil,
        List.getD_cons_zero, Nat.add_zero]
      field_simp
      ring
    | succ j' =>
      have h0 : cum + a < 0 := by simpa using hneg 0 (Nat.succ_pos _)
      simp only [paybackAux]
      rw [if_neg (by linarith)]
      rw [ih j' (cum + a) (year + 1) (by simpa using hj) (by omega)
        (fun k hk => by simpa [add_assoc] using hneg (k+1) (Nat.succ_lt_succ hk))
        (by simpa [add_assoc] using hprev)
        (by simpa [add_assoc] using hcross)]
      simp only [List.take_succ_cons, List.sum_cons, List.getD_cons_succ]
      push_cast
      ring_nf

/-- C3 amended (corrected): when the running cash-flow total first turns
non-negative at year y > 0, payback is y minus the post-crossing excess
divided by year y's cash flow; when the running total never turns
non-negative, payback equals the length of the cash-flow sequence — for
the sequence built by the calculator that is lifetime + 1, one more than
the lifetime the claim states. -/
theorem C3_payback (cfs : List ℚ) (y : ℕ) (m : Merged) :
    (0 < y → y < cfs.length →
      (∀ k < y, (cfs.take (k+1)).sum < 0) →
      0 ≤ (cfs.take (y+1)).sum →
      calculate_payback cfs = (y : ℚ) - (cfs.take (y+1)).sum / cfs.getD y 0) ∧
    ((∀ k < cfs.length, (cfs.take (k+1)).sum < 0) →
      calculate_payback cfs = (cfs.length : ℚ)) ∧
    ((∀ k < (cashFlowsOf m).length, ((cashFlowsOf m).take (k+1)).sum < 0) →
      calculate_payback (cashFlowsOf m) = (m.project_lifetime_years : ℚ) + 1) := by
  refine ⟨?_, ?_, ?_⟩
  · intro hy hylen hneg hcross
    unfold calculate_payback
    have hprev : (0:ℚ) + (cfs.take y).sum < 0 := by
      have := hneg (y - 1) (by omega)
      have hy1 : y - 1 + 1 = y := by omega
      rw [hy1] at this
      simpa using this
    have := paybackAux_cross cfs y 0 0 hylen (by omega)
      (fun k hk => by simpa using hneg k hk) hprev (by simpa using hcross)
    simpa using this
  · intro hneg
    unfold calculate_payback
    have := paybackAux_never cfs 0 0 (fun k hk => by simpa using hneg k hk)
    simpa using this
  · intro hneg
    unfold calculate_payback
    have := paybackAux_never (cashFlowsOf m) 0 0 (fun k hk => by simpa using hneg k hk)
    rw [this, cashFlows_length m]
    push_cast
    ring

/-- Inputs whose project never pays back: zero electricity price, so each
year's net cash flow is the negated (escalating) insurance opex. -/
def neverPays : Merged :=
  mergeWithDefaults
    { capacity_mw := 1, capex_per_kw := 1, project_lifetime_years := some 1,
      electricity_price_per_mwh := some 0 }

/-- Witness for C3_payback: crossing case on [-100, 60, 60] (payback
5/3) and never-crossing case on the neverPays cash flows (payback =
lifetime + 1 = 2). -/
theorem C3_payback_witness :
    calculate_payback [-100, 60, 60]
      = (2 : ℚ) - (([-100, 60, 60] : List ℚ).take 3).sum
          / ([-100, 60, 60] : List ℚ).getD 2 0 ∧
    calculate_payback (cashFlowsOf neverPays)
      = ((cashFlowsOf neverPays).length : ℚ) ∧
    calculate_payback (cashFlowsOf neverPays)
      = (neverPays.project_lifetime_years : ℚ) + 1 :=
  ⟨(C3_payback [-100, 60, 60] 2 neverPays).1 (by decide) (by decide) (by decide)
      (by decide),
   (C3_payback (cashFlowsOf neverPays) 2 neverPays).2.1 (by decide),
   (C3_payback (cashFlowsOf neverPays) 2 neverPays).2.2 (by decide)⟩

/-- C3 counterexample: a validated one-year project whose running totals
stay negative; the claim says payback equals the lifetime (1), the code
returns the cash-flow list length (2). -/
theorem C3_counterexample :
    Valid neverPays ∧
    neverPays.project_lifetime_years = 1 ∧
    (∀ k < (cashFlowsOf neverPays).length,
      ((cashFlowsOf neverPays).take (k+1)).sum < 0) ∧
    calculate_payback (cashFlowsOf neverPays) = 2 ∧
    (2 : ℚ) ≠ 1 := by
  decide

/-- C8 amended (corrected): a non-finite primary root-finder result is
reported as IRR 0.0; a raised primary root-finder falls back to
Newton-Raphson from rate 0.10 with at most 1000 iterations, and each
iteration stops before the update when the derivative magnitude is below
1e-10 — returning the last rate, which in general is neither 0.0 nor a
converged root — or after the update when the NPV magnitude is below
1e-6. -/
theorem C8_irr_fallback (cfs : List ℚ) (fuel : ℕ) (rate : ℚ) :
    calculate_irr .nonfinite cfs = 0 ∧
    calculate_irr .raised cfs = newtonLoop 1000 (1/10) cfs ∧
    newtonLoop (fuel + 1) rate cfs
      = (if |npvDerivAt rate cfs| < 1/10 ^ 10 then rate
         else if |npvAt rate cfs| < 1/10 ^ 6 then
           rate - npvAt rate cfs / npvDerivAt rate cfs
         else newtonLoop fuel (rate - npvAt rate cfs / npvDerivAt rate cfs) cfs) :=
  ⟨rfl, rfl, rfl⟩

/-- C8 counterexample: on the single-entry cash-flow list [5] the NPV is
the constant 5, so no root exists and the Newton stage exits through the
derivative-underflow break with |NPV| = 5 (never below 1e-6); the
reported IRR is the start rate 0.1, not 0.0. -/
theorem C8_counterexample :
    calculate_irr .raised [5] = 1/10 ∧
    npvAt (1/10) [5] = 5 ∧
    ¬ |npvAt (1/10) [5]| < 1/10 ^ 6 ∧
    |npvDerivAt (1/10) [5]| < 1/10 ^ 10 ∧
    (1/10 : ℚ) ≠ 0 := by
  decide

/-- Bounds on the efficiency factor looked up for any source string:
every table entry and the 0.30 fallback lie in (0, 0.88]. -/
lemma efficiency_factor_bounds (s : String) :
    0 < (EFFICIENCY_FACTORS s).getD (30/100) ∧
    (EFFICIENCY_FACTORS s).getD (30/100) ≤ 88/100 := by
  unfold EFFICIENCY_FACTORS
  split_ifs <;> norm_num

/-- Every end-use quality value lies in [0, 1]. -/
lemma quality_value_bounds (eu : EnergyQuality) : 0 ≤ eu.value ∧ eu.value ≤ 1 := by
  cases eu <;> norm_num [EnergyQuality.value]

/-- The Carnot factor of a hot reservoir strictly above T0 lies in (0,1). -/
lemma carnot_factor_bounds (T : ℚ) (hT : T0 < T) :
    0 < calculate_carnot_factor T none ∧ calculate_carnot_factor T none < 1 := by
  have hT0 : (0:ℚ) < T0 := by norm_num [T0]
  have hTpos : (0:ℚ) < T := lt_trans hT0 hT
  unfold calculate_carnot_factor
  rw [if_neg (not_le.mpr hT)]
  constructor
  · have : T0 / T < 1 := (div_lt_one hTpos).mpr hT
    linarith
  · have : 0 < T0 / T := div_pos hT0 hTpos
    linarith

/-- Heat exergy of a nonnegative heat quantity is between 0 and the heat
quantity. -/
lemma heat_exergy_bounds (heat T : ℚ) (hheat : 0 ≤ heat) :
    0 ≤ calculate_heat_exergy heat T ∧ calculate_heat_exergy heat T ≤ heat := by
  unfold calculate_heat_exergy
  split_ifs with h
  · exact ⟨le_refl 0, hheat⟩
  · have hb := carnot_factor_bounds T (not_le.mp h)
    refine ⟨mul_nonneg hheat hb.1.le, ?_⟩
    calc heat * calculate_carnot_factor T none
        ≤ heat * 1 := mul_le_mul_of_nonneg_left hb.2.le hheat
      _ = heat := mul_one heat

/-- Rounding a nonnegative rational stays nonnegative. -/
lemma roundHalfEven_nonneg (y : ℚ) (hy : 0 ≤ y) : 0 ≤ roundHalfEven y := by
  unfold roundHalfEven
  dsimp only
  have hnum : 0 ≤ y.num := Rat.num_nonneg.mpr hy
  have hden : (0:ℤ) ≤ (y.den : ℤ) := Int.ofNat_nonneg _
  have hfd : 0 ≤ y.num.fdiv (y.den : ℤ) := Int.fdiv_nonneg hnum hden
  split_ifs <;> omega

/-- Rounding to d digits preserves nonnegativity. -/
lemma roundTo_nonneg (d : ℕ) (x : ℚ) (hx : 0 ≤ x) : 0 ≤ roundTo d x := by
  unfold roundTo
  apply div_nonneg
  · exact_mod_cast roundHalfEven_nonneg _ (mul_nonneg hx (by positivity))
  · positivity

/-- The useful energy computed inside analyze_process. -/
def usefulEnergyOf (s : String) (E : ℚ) : ℚ :=
  E * (EFFICIENCY_FACTORS (pyLower s)).getD (30/100)

/-- The input exergy computed inside analyze_process. -/
def inputExergyOf (s : String) (E : ℚ) : ℚ :=
  if isRenewableSource (pyLower s) then E
  else E * (if isFuelSource (pyLower s) then 106/100 else 1)

/-- The useful exergy computed inside analyze_process. -/
def usefulExergyOf (s : String) (E : ℚ) (temp : Option ℚ) (eu : EnergyQuality) : ℚ :=
  if optTruthy temp && eu.isHeatUse then
    calculate_heat_exergy (usefulEnergyOf s E) (temp.getD 0)
  else usefulEnergyOf s E * eu.value

/-- The exergy fields of the analyze_process result, expressed through
the named intermediate quantities. -/
lemma analyze_process_exergy_fields (s : String) (E : ℚ) (temp : Option ℚ)
    (eu : EnergyQuality) (steps : List ProcessStep) :
    (analyze_process s E temp eu steps).useful_exergy_mj
      = roundTo 2 (usefulExergyOf s E temp eu) ∧
    (analyze_process s E temp eu steps).exergy_destruction_mj
      = roundTo 2 (inputExergyOf s E - usefulExergyOf s E temp eu) :=
  ⟨rfl, rfl⟩

/-- C9 (confirmed): for positive input energy, any source string, any
end-use and any optional output temperature, the reported useful exergy
and exergy destruction are both nonnegative. -/
theorem C9_exergy_nonneg (s : String) (E : ℚ) (temp : Option ℚ)
    (eu : EnergyQuality) (steps : List ProcessStep) (hE : 0 < E) :
    0 ≤ (analyze_process s E temp eu steps).useful_exergy_mj ∧
    0 ≤ (analyze_process s E temp eu steps).exergy_destruction_mj := by
  obtain ⟨hf1, hf2⟩ := analyze_process_exergy_fields s E temp eu steps
  rw [hf1, hf2]
  have heff := efficiency_factor_bounds (pyLower s)
  have huE : 0 ≤ usefulEnergyOf s E := by
    unfold usefulEnergyOf
    exact mul_nonneg hE.le heff.1.le
  have hux_nonneg : 0 ≤ usefulExergyOf s E temp eu := by
    unfold usefulExergyOf
    split_ifs with hheat
    · exact (heat_exergy_bounds _ _ huE).1
    · exact mul_nonneg huE (quality_value_bounds eu).1
  refine ⟨roundTo_nonneg _ _ hux_nonneg, roundTo_nonneg _ _ ?_⟩
  rw [sub_nonneg]
  have hle : usefulExergyOf s E temp eu ≤ usefulEnergyOf s E := by
    unfold usefulExergyOf
    split_ifs with hheat
    · exact (heat_exergy_bounds _ _ huE).2
    · have hq := quality_value_bounds eu
      nlinarith [huE, hq.1, hq.2]
  have hueE : usefulEnergyOf s E ≤ E := by
    unfold usefulEnergyOf
    nlinarith [heff.2, hE]
  have hEin : E ≤ inputExergyOf s E := by
    unfold inputExergyOf
    split_ifs with hr hfuel
    · exact le_refl E
    · nlinarith [hE]
    · rw [mul_one]
  linarith

/-- Witness for C9_exergy_nonneg on the solar scenario. -/
theorem C9_exergy_nonneg_witness :
    0 ≤ (analyze_process "solar" 1000 none .ELECTRICITY []).useful_exergy_mj ∧
    0 ≤ (analyze_process "solar" 1000 none .ELECTRICITY []).exergy_destruction_mj :=
  C9_exergy_nonneg "solar" 1000 none .ELECTRICITY [] (by norm_num)

/-- Every validation error message names the offending field. -/
lemma validateMsg_cases (m : Merged) (msg : String)
    (h : validateMsg m = some msg) :
    msg = "Capacity must be greater than 0" ∨
    msg = "CAPEX must be greater than 0" ∨
    msg = "Capacity factor must be between 0 and 1" ∨
    msg = "Discount rate must be between 0 and 1" := by
  unfold validateMsg at h
  split_ifs at h <;> simp_all

/-- C10 (confirmed): whenever any variation in a sensitivity sweep scales
the varied parameter so that the modified inputs fail validation, the
sweep produces no result arrays at all — it is an error carrying one of
the four field-naming validation messages. -/
theorem C10_sensitivity_validation (m : Merged) (parameter : Param)
    (variations : List ℚ) (_hbase : Valid m)
    (hbad : ∃ pct ∈ variations,
      ¬ Valid (setParam m (getParam m parameter * (1 + pct / 100)) parameter)) :
    (sensitivity_analysis m parameter variations).isOk = false ∧
    sensitivity_analysis m parameter variations ∈
      ([.error "Capacity must be greater than 0",
        .error "CAPEX must be greater than 0",
        .error "Capacity factor must be between 0 and 1",
        .error "Discount rate must be between 0 and 1"] :
        List (Except String (List (Option ℚ) × List ℚ))) := by
  induction variations with
  | nil =>
    obtain ⟨pct, hmem, -⟩ := hbad
    exact absurd hmem (List.not_mem_nil pct)
  | cons pct rest ih =>
    simp only [sensitivity_analysis]
    cases hm : validateMsg (setParam m (getParam m parameter * (1 + pct / 100)) parameter) with
    | some msg =>
      rcases validateMsg_cases _ _ hm with h | h | h | h <;>
        subst h <;> exact ⟨rfl, by simp⟩
    | none =>
      have hbad' : ∃ q ∈ rest,
          ¬ Valid (setParam m (getParam m parameter * (1 + q / 100)) parameter) := by
        obtain ⟨q, hqmem, hqbad⟩ := hbad
        rcases List.mem_cons.mp hqmem with rfl | hqrest
        · exact absurd hm hqbad
        · exact ⟨q, hqrest, hqbad⟩
      obtain ⟨ih1, ih2⟩ := ih hbad'
      cases hrest : sensitivity_analysis m parameter rest with
      | error msg =>
        rw [hrest] at ih2
        exact ⟨rfl, ih2⟩
      | ok res =>
        rw [hrest] at ih1
        exact absurd ih1 (by simp [Except.isOk, Except.toBool])

/-- Witness for C10_sensitivity_validation: a -100 percent variation on
capacity makes the scaled capacity 0, and the sweep on scenario A errors
with the capacity message. -/
theorem C10_sensitivity_validation_witness :
    (sensitivity_analysis scenarioA .capacity_mw [-100]).isOk = false ∧
    sensitivity_analysis scenarioA .capacity_mw [-100] ∈
      ([.error "Capacity must be greater than 0",
        .error "CAPEX must be greater than 0",
        .error "Capacity factor must be between 0 and 1",
        .error "Discount rate must be between 0 and 1"] :
        List (Except String (List (Option ℚ) × List ℚ))) :=
  C10_sensitivity_validation scenarioA .capacity_mw [-100] (by decide)
    ⟨-100, by decide, by decide⟩

/-- The escalated-opex discount sum appearing in _calculate_lcoe, with
the opex amount factored out. -/
def escS (r : ℚ) (n : ℕ) : ℚ :=
  ∑ t ∈ Finset.range n, (102/100 : ℚ) ^ t / (1 + r) ^ (t + 1)

/-- The production discount sum appearing in _calculate_lcoe, with the
production amount factored out. -/
def discS (r : ℚ) (n : ℕ) : ℚ :=
  ∑ t ∈ Finset.range n, (1 : ℚ) / (1 + r) ^ (t + 1)

lemma escS_pos (r : ℚ) (n : ℕ) (hr : 0 ≤ r) (hn : 1 ≤ n) : 0 < escS r n := by
  have h1r : (0:ℚ) < 1 + r := by linarith
  apply Finset.sum_pos
  · intro t _
    exact div_pos (pow_pos (by norm_num) t) (pow_pos h1r (t + 1))
  · exact Finset.nonempty_range_iff.mpr (by omega)

lemma discS_pos (r : ℚ) (n : ℕ) (hr : 0 ≤ r) (hn : 1 ≤ n) : 0 < discS r n := by
  have h1r : (0:ℚ) < 1 + r := by linarith
  apply Finset.sum_pos
  · intro t _
    exact div_pos (by norm_num) (pow_pos h1r (t + 1))
  · exact Finset.nonempty_range_iff.mpr (by omega)

lemma opexSum_eq (A r : ℚ) (n : ℕ) :
    (∑ t ∈ Finset.range n, A * (102/100 : ℚ) ^ t / (1 + r) ^ (t + 1))
      = A * escS r n := by
  unfold escS
  rw [Finset.mul_sum]
  exact Finset.sum_congr rfl (fun t _ => by rw [mul_div_assoc])

lemma prodSum_eq (P r : ℚ) (n : ℕ) :
    (∑ t ∈ Finset.range n, P / (1 + r) ^ (t + 1)) = P * discS r n := by
  unfold discS
  rw [Finset.mul_sum]
  exact Finset.sum_congr rfl (fun t _ => by rw [mul_one_div])

/-- Closed form of _calculate_lcoe when the discounted production is
nonzero. -/
lemma calculate_lcoe_eq (m : Merged) (C A P : ℚ)
    (hr : 0 ≤ m.discount_rate) (hn : 1 ≤ m.project_lifetime_years) (hP : 0 < P) :
    calculate_lcoe m C A P
      = some ((C + A * escS m.discount_rate m.project_lifetime_years)
          / (P * discS m.discount_rate m.project_lifetime_years)) := by
  unfold calculate_lcoe
  dsimp only
  rw [opexSum_eq, prodSum_eq]
  rw [if_neg]
  exact ne_of_gt
    (mul_pos hP (discS_pos m.discount_rate m.project_lifetime_years hr hn))

/-- Increasing the equipment cost increases the LCOE quotient: the
numerator grows by (delta equipment) x installation factor x
(1 + insurance x opex discount sum) while the denominator is fixed. -/
lemma lcoe_capex_mono (cap c1 c2 F L G CB FX vP ins S T P : ℚ)
    (hc : c1 < c2) (hcap : 0 < cap) (hF : 1 ≤ F) (hins : 0 ≤ ins)
    (hS : 0 < S) (hT : 0 < T) (hP : 0 < P) :
    (cap * 1000 * c1 + cap * 1000 * c1 * (F - 1) + L + G
        + (CB + FX + vP
            + (cap * 1000 * c1 + cap * 1000 * c1 * (F - 1) + L + G) * ins) * S)
      / (P * T)
    < (cap * 1000 * c2 + cap * 1000 * c2 * (F - 1) + L + G
        + (CB + FX + vP
            + (cap * 1000 * c2 + cap * 1000 * c2 * (F - 1) + L + G) * ins) * S)
      / (P * T) := by
  rw [div_lt_div_iff₀ (by positivity) (by positivity)]
  have hF0 : (0:ℚ) < F := by linarith
  have hinsS : (0:ℚ) < 1 + ins * S := by nlinarith
  nlinarith [mul_pos (mul_pos (mul_pos (mul_pos (mul_pos hcap
    (show (0:ℚ) < 1000 by norm_num)) (sub_pos.2 hc)) hF0) hinsS)
    (mul_pos hP hT)]

/-- Increasing the production decreases the LCOE quotient: the
production-independent part of the discounted cost is positive, and the
variable-opex part scales linearly with production. -/
lemma lcoe_cf_mono (C CB FX v ins S T P1 P2 : ℚ)
    (hC : 0 < C) (hCB : 0 ≤ CB) (hFX : 0 ≤ FX) (hins : 0 ≤ ins)
    (hS : 0 < S) (hT : 0 < T) (hP1 : 0 < P1) (hP12 : P1 < P2) :
    (C + (CB + FX + P2 * v + C * ins) * S) / (P2 * T)
      < (C + (CB + FX + P1 * v + C * ins) * S) / (P1 * T) := by
  have hP2 : 0 < P2 := lt_trans hP1 hP12
  rw [div_lt_div_iff₀ (by positivity) (by positivity)]
  have hCK : 0 < C + (CB + FX + C * ins) * S := by
    nlinarith [mul_nonneg (add_nonneg (add_nonneg hCB hFX)
      (mul_nonneg hC.le hins)) hS.le]
  nlinarith [mul_pos (mul_pos hT hCK) (sub_pos.2 hP12)]

/-- C6 amended (corrected): LCOE is strictly increasing in capital cost
per kW and strictly decreasing in capacity factor, for validated inputs
that additionally have installation factor at least 1, nonnegative
insurance rate, lifetime at least 1 year and strictly positive annual
production; the capacity-factor part further needs no explicit
annual-production override (otherwise production, hence LCOE, ignores the
capacity factor) and nonnegative land, grid, capacity-based and fixed
operating costs. -/
theorem C6_lcoe_monotonicity :
    (∀ (m : Merged) (c1 c2 : ℚ), Valid m →
      1 ≤ m.installation_factor → 0 ≤ m.insurance_rate →
      1 ≤ m.project_lifetime_years → 0 < calculate_annual_production m →
      c1 < c2 →
      ((lcoeOf { m with capex_per_kw := c1 }).isSome = true ∧
       (lcoeOf { m with capex_per_kw := c2 }).isSome = true ∧
       lcoeValD { m with capex_per_kw := c1 }
         < lcoeValD { m with capex_per_kw := c2 })) ∧
    (∀ (m : Merged) (f1 f2 : ℚ), Valid m → m.annual_production_mwh = none →
      1 ≤ m.installation_factor → 0 ≤ m.land_cost → 0 ≤ m.grid_connection_cost →
      0 ≤ m.opex_per_kw_year → 0 ≤ m.fixed_opex_annual → 0 ≤ m.insurance_rate →
      1 ≤ m.project_lifetime_years → 0 < f1 → f1 < f2 →
      ((lcoeOf { m with capacity_factor := f1 }).isSome = true ∧
       (lcoeOf { m with capacity_factor := f2 }).isSome = true ∧
       lcoeValD { m with capacity_factor := f2 }
         < lcoeValD { m with capacity_factor := f1 })) := by
  constructor
  · intro m c1 c2 hv hF hins hn hP hc
    obtain ⟨hcap, hcapex, -, -, hr, -⟩ := valid_facts m hv
    have hS := escS_pos m.discount_rate m.project_lifetime_years hr hn
    have hT := discS_pos m.discount_rate m.project_lifetime_years hr hn
    have h1 : lcoeOf { m with capex_per_kw := c1 }
        = some ((m.capacity_mw * 1000 * c1
              + m.capacity_mw * 1000 * c1 * (m.installation_factor - 1)
              + m.land_cost + m.grid_connection_cost
            + (m.capacity_mw * 1000 * m.opex_per_kw_year + m.fixed_opex_annual
                + calculate_annual_production m * m.variable_opex_per_mwh
                + (m.capacity_mw * 1000 * c1
                    + m.capacity_mw * 1000 * c1 * (m.installation_factor - 1)
                    + m.land_cost + m.grid_connection_cost) * m.insurance_rate)
              * escS m.discount_rate m.project_lifetime_years)
          / (calculate_annual_production m
              * discS m.discount_rate m.project_lifetime_years)) :=
      calculate_lcoe_eq { m with capex_per_kw := c1 } _ _ _ hr hn hP
    have h2 : lcoeOf { m with capex_per_kw := c2 }
        = some ((m.capacity_mw * 1000 * c2
              + m.capacity_mw * 1000 * c2 * (m.installation_factor - 1)
              + m.land_cost + m.grid_connection_cost
            + (m.capacity_mw * 1000 * m.opex_per_kw_year + m.fixed_opex_annual
                + calculate_annual_production m * m.variable_opex_per_mwh
                + (m.capacity_mw * 1000 * c2
                    + m.capacity_mw * 1000 * c2 * (m.installation_factor - 1)
                    + m.land_cost + m.grid_connection_cost) * m.insurance_rate)
              * escS m.discount_rate m.project_lifetime_years)
          / (calculate_annual_production m
              * discS m.discount_rate m.project_lifetime_years)) :=
      calculate_lcoe_eq { m with capex_per_kw := c2 } _ _ _ hr hn hP
    refine ⟨by rw [h1]; rfl, by rw [h2]; rfl, ?_⟩
    unfold lcoeValD
    rw [h1, h2, Option.getD_some, Option.getD_some]
    exact lcoe_capex_mono m.capacity_mw c1 c2 m.installation_factor m.land_cost
      m.grid_connection_cost (m.capacity_mw * 1000 * m.opex_per_kw_year)
      m.fixed_opex_annual (calculate_annual_production m * m.variable_opex_per_mwh)
      m.insurance_rate _ _ _ hc hcap hF hins hS hT hP
  · intro m f1 f2 hv hov hF hL hG hop hfx hins hn hf1 hf12
    obtain ⟨hcap, hcapex, -, -, hr, -⟩ := valid_facts m hv
    have hS := escS_pos m.discount_rate m.project_lifetime_years hr hn
    have hT := discS_pos m.discount_rate m.project_lifetime_years hr hn
    have hf2 : 0 < f2 := lt_trans hf1 hf12
    have hP1 : 0 < 8760 * f1 * m.capacity_mw := by positivity
    have hP2 : 0 < 8760 * f2 * m.capacity_mw := by positivity
    have hprod1 : calculate_annual_production { m with capacity_factor := f1 }
        = 8760 * f1 * m.capacity_mw := by
      simp [calculate_annual_production, hov]
    have hprod2 : calculate_annual_production { m with capacity_factor := f2 }
        = 8760 * f2 * m.capacity_mw := by
      simp [calculate_annual_production, hov]
    have h1 : lcoeOf { m with capacity_factor := f1 }
        = some ((totalCapex m
            + (m.capacity_mw * 1000 * m.opex_per_kw_year + m.fixed_opex_annual
                + 8760 * f1 * m.capacity_mw * m.variable_opex_per_mwh
                + totalCapex m * m.insurance_rate)
              * escS m.discount_rate m.project_lifetime_years)
          / (8760 * f1 * m.capacity_mw
              * discS m.discount_rate m.project_lifetime_years)) := by
      unfold lcoeOf
      dsimp only
      rw [hprod1]
      exact calculate_lcoe_eq _ _ _ _ hr hn hP1
    have h2 : lcoeOf { m with capacity_factor := f2 }
        = some ((totalCapex m
            + (m.capacity_mw * 1000 * m.opex_per_kw_year + m.fixed_opex_annual
                + 8760 * f2 * m.capacity_mw * m.variable_opex_per_mwh
                + totalCapex m * m.insurance_rate)
              * escS m.discount_rate m.project_lifetime_years)
          / (8760 * f2 * m.capacity_mw
              * discS m.discount_rate m.project_lifetime_years)) := by
      unfold lcoeOf
      dsimp only
      rw [hprod2]
      exact calculate_lcoe_eq _ _ _ _ hr hn hP2
    refine ⟨by rw [h1]; rfl, by rw [h2]; rfl, ?_⟩
    unfold lcoeValD
    rw [h1, h2, Option.getD_some, Option.getD_some]
    have hC : 0 < totalCapex m := by
      unfold totalCapex calculate_capex
      dsimp only
      nlinarith [mul_pos (mul_pos hcap (show (0:ℚ) < 1000 by norm_num)) hcapex,
        mul_nonneg (mul_pos (mul_pos hcap
          (show (0:ℚ) < 1000 by norm_num)) hcapex).le (sub_nonneg.2 hF)]
    have hPlt : 8760 * f1 * m.capacity_mw < 8760 * f2 * m.capacity_mw := by
      nlinarith
    exact lcoe_cf_mono (totalCapex m) (m.capacity_mw * 1000 * m.opex_per_kw_year)
      m.fixed_opex_annual m.variable_opex_per_mwh m.insurance_rate _ _ _ _
      hC (mul_nonneg (mul_nonneg hcap.le (by norm_num)) hop) hfx hins hS hT hP1 hPlt

/-- Base inputs for the monotonicity witness: one-year project, all
optional cost parameters at their defaults. -/
def monoBase : Merged :=
  mergeWithDefaults
    { capacity_mw := 1, capex_per_kw := 5, project_lifetime_years := some 1 }

/-- Witness for C6_lcoe_monotonicity: capex 1 versus 2 raises LCOE, and
capacity factor 1/4 versus 1/2 lowers it, on the one-year base inputs. -/
theorem C6_lcoe_monotonicity_witness :
    ((lcoeOf { monoBase with capex_per_kw := 1 }).isSome = true ∧
     (lcoeOf { monoBase with capex_per_kw := 2 }).isSome = true ∧
     lcoeValD { monoBase with capex_per_kw := 1 }
       < lcoeValD { monoBase with capex_per_kw := 2 }) ∧
    ((lcoeOf { monoBase with capacity_factor := 1/4 }).isSome = true ∧
     (lcoeOf { monoBase with capacity_factor := 1/2 }).isSome = true ∧
     lcoeValD { monoBase with capacity_factor := 1/2 }
       < lcoeValD { monoBase with capacity_factor := 1/4 }) :=
  ⟨C6_lcoe_monotonicity.1 monoBase 1 2 (by decide) (by decide) (by decide)
      (by decide) (by decide) (by norm_num),
   C6_lcoe_monotonicity.2 monoBase (1/4) (1/2) (by decide) (by decide)
      (by decide) (by decide) (by decide) (by decide) (by decide) (by decide)
      (by decide) (by norm_num) (by norm_num)⟩

/-- Validated inputs carrying an explicit annual-production override. -/
def overrideBase : Merged :=
  mergeWithDefaults
    { capacity_mw := 1, capex_per_kw := 1, capacity_factor := some (1/2),
      annual_production_mwh := some 100, project_lifetime_years := some 1 }

/-- overrideBase with a strictly larger capacity factor. -/
def overrideHigher : Merged := { overrideBase with capacity_factor := 3/5 }

/-- C6 counterexample: two validated assumption sets differing only in
capacity factor, but carrying an explicit annual-production override; the
larger capacity factor leaves the (unrounded) LCOE unchanged instead of
strictly smaller, refuting the claim as stated. -/
theorem C6_counterexample :
    Valid overrideBase ∧ Valid overrideHigher ∧
    overrideHigher = { overrideBase with capacity_factor := 3/5 } ∧
    overrideBase.capacity_factor < overrideHigher.capacity_factor ∧
    lcoeOf overrideHigher = lcoeOf overrideBase ∧
    ¬ lcoeValD overrideHigher < lcoeValD overrideBase :=
  ⟨by decide, by decide, rfl, by decide, rfl, by
    rw [show lcoeValD overrideHigher = lcoeValD overrideBase from rfl]
    exact lt_irrefl _⟩

